import Mathlib

/-!
Verification of the Kalshi PGA opportunity-detection pipeline and
position-lifecycle engine against its specification.

Shallow embedding conventions:
* Python floats are modelled as `ℚ` (all the arithmetic the claims touch is
  exact decimal arithmetic, faithfully represented by rationals).
* Python dicts are modelled as association lists (`List (String × _)`);
  dict truthiness is list non-emptiness.
* Fallible / effectful steps (HTTP requests) are modelled by explicit
  outcome values passed in as arguments.
-/

namespace KalshiPGA

/-! ## StakeSizer — src/kelly.py -/

/-- The full-Kelly fraction computed in `kelly_stake` (src/kelly.py lines
24-29): `price = price_cents/100`, `b = (1-price)/price`, `q = 1-p`,
`f* = (b*p - q)/b`. -/
def kelly_f_star (probability : ℚ) (price_cents : ℤ) : ℚ :=
  let price : ℚ := (price_cents : ℚ) / 100
  let b := (1 - price) / price
  let q := 1 - probability
  (b * probability - q) / b

/-- `kelly_stake` (src/kelly.py lines 4-35).  The Python defaults are
`kelly_fraction = 0.25`, `max_stake_pct = 0.05`; they are passed explicitly
here. -/
def kelly_stake (probability : ℚ) (price_cents : ℤ)
    (kelly_fraction : ℚ) (max_stake_pct : ℚ) : ℚ :=
  if price_cents ≤ 0 ∨ 100 ≤ price_cents ∨ probability ≤ 0 ∨ 1 ≤ probability then 0
  else
    let f_star := kelly_f_star probability price_cents
    if f_star ≤ 0 then 0
    else min (f_star * kelly_fraction) max_stake_pct

/-- `kelly_edge_required` (src/kelly.py lines 38-42): breakeven probability
for a price. -/
def kelly_edge_required (price_cents : ℤ) : ℚ :=
  if price_cents ≤ 0 ∨ 100 ≤ price_cents then 0
  else (price_cents : ℚ) / 100

/-! ## Round-based edge weighting — src/edge_adjustments.py -/

/-- `_ROUND_MULTIPLIERS.get(round_num, 1.0)` (src/edge_adjustments.py
lines 4-9 and 31). -/
def round_multiplier (round_num : ℤ) : ℚ :=
  if round_num = 1 then 7/10
  else if round_num = 2 then 17/20
  else if round_num = 3 then 1
  else if round_num = 4 then 23/20
  else 1

/-- `get_min_edge_for_round` (src/edge_adjustments.py lines 19-32). -/
def get_min_edge_for_round (base_min_edge : ℚ) (round_num : ℤ) : ℚ :=
  base_min_edge / round_multiplier round_num

/-! ## Scanner arithmetic — src/main.py, src/models.py -/

/-- `KalshiMarket.implied_probability` (src/models.py lines 24-26):
`yes_ask / 100`. -/
def implied_probability (yes_ask : ℚ) : ℚ := yes_ask / 100

/-- Edge computation in `run_cycle` (src/main.py line 143):
`(dg_prob - impl_prob) * 100`. -/
def edge_pct (dg_prob impl_prob : ℚ) : ℚ := (dg_prob - impl_prob) * 100

/-- `MAX_SPREAD` (src/main.py line 28). -/
def MAX_SPREAD : ℚ := 15

/-- `MIN_EDGE_TO_EVALUATE` (src/main.py line 27). -/
def MIN_EDGE_TO_EVALUATE : ℚ := 8

/-- The round-adjusted edge filter in `run_cycle` (src/main.py line 146):
a market is dropped when `edge_pct < min_edge`. -/
def passes_edge_filter (edge min_edge : ℚ) : Bool := !(decide (edge < min_edge))

/-- The spread filter in `run_cycle` (src/main.py lines 158-159): a market
is dropped when `yes_ask - yes_bid > MAX_SPREAD`. -/
def passes_spread_filter (yes_ask yes_bid : ℚ) : Bool :=
  !(decide (MAX_SPREAD < yes_ask - yes_bid))

/-! ## PhaseDetector — src/tournament_state.py -/

/-- `TournamentPhase` (src/tournament_state.py lines 10-15). -/
inductive TournamentPhase
  | PRE_TOURNAMENT
  | LIVE_ROUND
  | BETWEEN_ROUNDS
  | FINISHED
  | IDLE
deriving DecidableEq, Repr

/-- One leaderboard value, with the `.get(key, 0)` defaults of
src/tournament_state.py already applied (entries lacking a key are
modelled as holding the default `0`). -/
structure LBEntry where
  round_number : ℤ
  thru : ℤ
deriving DecidableEq, Repr

/-- `max(set(rounds), key=rounds.count)` (src/tournament_state.py line 50):
an element of `rounds` with maximal multiplicity.  CPython's tie-break
(first maximum in set-iteration order) is implementation-defined; the model
breaks ties by first occurrence in the list, which is one valid refinement
and is irrelevant to every claim (only branch membership matters). -/
def modal_round (rounds : List ℤ) : ℤ :=
  rounds.foldl
    (fun best x => if rounds.count best < rounds.count x then x else best)
    (rounds.headD 0)

/-- The phase/round logic of `detect_phase` (src/tournament_state.py lines
25-104).  `dg_live` and `dg_pre` are consulted only through their key
structure (Python truthiness = non-emptiness, `len(dg_pre_data) > 1`), so
they are modelled by their key lists; the `tournament_name` passthrough
(lines 40-44), which affects neither the phase nor the round number, is
omitted from the result. -/
def detect_phase (dg_live : List String) (dg_pre : Option (List String))
    (leaderboard : List (String × LBEntry)) : TournamentPhase × ℤ :=
  if dg_live ≠ [] ∧ leaderboard ≠ [] then
    let rounds := leaderboard.map (fun v => v.2.round_number)
    let round_num := modal_round rounds
    -- All R4 thru 18 → FINISHED
    if 4 ≤ round_num ∧ leaderboard.all (fun v =>
        !(decide (3 ≤ v.2.round_number)) ||
          decide (4 ≤ v.2.round_number ∧ 18 ≤ v.2.thru)) then
      (TournamentPhase.FINISHED, round_num)
    -- Players with 0 < thru < 18 → LIVE_ROUND
    else if leaderboard.any (fun v => decide (0 < v.2.thru ∧ v.2.thru < 18)) then
      (TournamentPhase.LIVE_ROUND, round_num)
    -- All thru ≥ 18 for the modal round → BETWEEN_ROUNDS
    else if (leaderboard.filter (fun v => v.2.round_number = round_num)) ≠ [] ∧
        (leaderboard.filter (fun v => v.2.round_number = round_num)).all
          (fun v => decide (18 ≤ v.2.thru)) then
      (TournamentPhase.BETWEEN_ROUNDS, round_num)
    -- Has live data but can't determine sub-state → LIVE_ROUND
    else
      (TournamentPhase.LIVE_ROUND, round_num)
  else if (match dg_pre with | some l => decide (1 < l.length) | none => false) then
    (TournamentPhase.PRE_TOURNAMENT, 0)
  else
    (TournamentPhase.IDLE, 0)

/-! Poll-interval configuration — src/config.py lines 16 and 34-37
(environment-variable defaults) and src/main.py line 26. -/

/-- `POLL_INTERVAL_SEC` default (src/config.py line 16). -/
def POLL_INTERVAL_SEC : ℕ := 30

/-- `POLL_INTERVAL_LIVE_SEC` default (src/config.py line 34). -/
def POLL_INTERVAL_LIVE_SEC : ℕ := 30

/-- `POLL_INTERVAL_PRE_TOURNAMENT_SEC` default (src/config.py line 35). -/
def POLL_INTERVAL_PRE_TOURNAMENT_SEC : ℕ := 1800

/-- `POLL_INTERVAL_BETWEEN_ROUNDS_SEC` default (src/config.py line 36). -/
def POLL_INTERVAL_BETWEEN_ROUNDS_SEC : ℕ := 1800

/-- `POLL_INTERVAL_IDLE_SEC` default (src/config.py line 37). -/
def POLL_INTERVAL_IDLE_SEC : ℕ := 3600

/-- `NO_TOURNAMENT_INTERVAL` (src/main.py line 26). -/
def NO_TOURNAMENT_INTERVAL : ℕ := 3600

/-- `get_poll_interval` (src/tournament_state.py lines 107-115): the fixed
phase → interval table. -/
def get_poll_interval (phase : TournamentPhase) : ℕ :=
  match phase with
  | TournamentPhase.LIVE_ROUND => POLL_INTERVAL_LIVE_SEC
  | TournamentPhase.PRE_TOURNAMENT => POLL_INTERVAL_PRE_TOURNAMENT_SEC
  | TournamentPhase.BETWEEN_ROUNDS => POLL_INTERVAL_BETWEEN_ROUNDS_SEC
  | TournamentPhase.FINISHED => POLL_INTERVAL_IDLE_SEC
  | TournamentPhase.IDLE => POLL_INTERVAL_IDLE_SEC

/-- The interval selection actually performed by `main()` after each cycle
(src/main.py lines 404-417): `NO_TOURNAMENT_INTERVAL` when the cycle
reported no active tournament, `config.POLL_INTERVAL_SEC` otherwise (and
also on an in-cycle error).  It consults neither the detected phase nor
`get_poll_interval`. -/
def main_select_interval (tournament_active : Bool) : ℕ :=
  if tournament_active then POLL_INTERVAL_SEC else NO_TOURNAMENT_INTERVAL

/-- The interval selection performed by the TUI scheduler
(src/tui/scheduler.py lines 117-128): `get_poll_interval` on its tracked
phase after a successful cycle, `POLL_INTERVAL_LIVE_SEC` after an
in-cycle error. -/
def scheduler_select_interval (phase : TournamentPhase) (errored : Bool) : ℕ :=
  if errored then POLL_INTERVAL_LIVE_SEC else get_poll_interval phase

/-! ## EdgeValidator — src/edge_validator.py -/

/-- `EdgeValidation` (src/edge_validator.py lines 10-18). -/
structure EdgeValidation where
  edge_vs_kalshi : ℚ
  edge_vs_pinnacle : Option ℚ
  edge_vs_consensus : Option ℚ
  confidence : String
  pinnacle_implied : Option ℚ
  consensus_implied : Option ℚ
  books_available : ℕ
deriving DecidableEq, Repr

/-- The `elif edge_vs_pinnacle is not None and edge_vs_pinnacle >= 3 and
edge_vs_kalshi >= 8` test (src/edge_validator.py line 61). -/
def pinnacle_high_rule (edge_vs_pinnacle : Option ℚ) (edge_vs_kalshi : ℚ) : Bool :=
  match edge_vs_pinnacle with
  | some e => decide (3 ≤ e) && decide (8 ≤ edge_vs_kalshi)
  | none => false

/-- The `is not None and ... < 0` tests (src/edge_validator.py lines 63
and 65). -/
def opt_negative (edge : Option ℚ) : Bool :=
  match edge with
  | some e => decide (e < 0)
  | none => false

/-- `validate_edge` (src/edge_validator.py lines 21-78).  `book_odds` is
the Python dict `{book_name: implied_probability}` whose values may be
`None`, modelled as an association list of `Option ℚ`.  The
`player_name`/`market_type` arguments are used only for logging and are
omitted. -/
def validate_edge (dg_prob kalshi_implied : ℚ)
    (book_odds : List (String × Option ℚ)) : EdgeValidation :=
  let edge_vs_kalshi := (dg_prob - kalshi_implied) * 100
  let pinnacle_implied := (book_odds.lookup "pinnacle").join
  let edge_vs_pinnacle := pinnacle_implied.map (fun pi => (dg_prob - pi) * 100)
  -- Consensus = average of all available books (values that are not None
  -- and are > 0)
  let vals := ((book_odds.map Prod.snd).filterMap id).filter
    (fun v => decide (0 < v))
  let consensus_implied :=
    if vals = [] then none else some (vals.sum / (vals.length : ℚ))
  let edge_vs_consensus := consensus_implied.map (fun c => (dg_prob - c) * 100)
  let books_available := book_odds.length
  let confidence :=
    if books_available = 0 then "medium"
    else if pinnacle_high_rule edge_vs_pinnacle edge_vs_kalshi then "high"
    else if opt_negative edge_vs_pinnacle then "low"
    else if opt_negative edge_vs_consensus then "low"
    else "medium"
  { edge_vs_kalshi := edge_vs_kalshi
    edge_vs_pinnacle := edge_vs_pinnacle
    edge_vs_consensus := edge_vs_consensus
    confidence := confidence
    pinnacle_implied := pinnacle_implied
    consensus_implied := consensus_implied
    books_available := books_available }

/-! ## PositionLedger — src/positions.py over the `positions` table of
src/database.py (lines 44-56, plus the `tournament_name` column added by
the migration at lines 113-118). -/

/-- Position status; the schema's
`CHECK(status IN ('OPEN', 'CLOSED'))` (src/database.py line 55). -/
inductive PosStatus
  | OPEN
  | CLOSED
deriving DecidableEq, Repr

/-- One row of the `positions` table (src/database.py lines 44-56).  The
autoincrement `id` is omitted: no claim mentions it and no operation reads
it. -/
structure PosRow where
  ticker : String
  player_name : String
  market_type : String
  entry_price : ℚ
  entry_edge : ℚ
  entry_timestamp : ℚ
  exit_price : Option ℚ
  exit_timestamp : Option ℚ
  profit_loss : Option ℚ
  status : PosStatus
  tournament_name : Option String
deriving DecidableEq, Repr

/-- `open_position` (src/positions.py lines 9-34).  The SQLite `INSERT`
raises, and the function returns `False` with no state change, exactly when
the `UNIQUE` constraint on `ticker` is violated, i.e. when any row with the
same ticker already exists (regardless of status); otherwise a new `OPEN`
row is appended and the function returns `True`. -/
def open_position (ticker player_name market_type : String)
    (entry_price entry_edge now : ℚ) (tournament_name : Option String)
    (db : List PosRow) : Bool × List PosRow :=
  if db.any (fun r => r.ticker = ticker) then
    (false, db)
  else
    (true, db ++ [{ ticker := ticker
                    player_name := player_name
                    market_type := market_type
                    entry_price := entry_price
                    entry_edge := entry_edge
                    entry_timestamp := now
                    exit_price := none
                    exit_timestamp := none
                    profit_loss := none
                    status := PosStatus.OPEN
                    tournament_name := tournament_name }])

/-- The per-row action of the SQL `UPDATE` in `close_position`
(src/positions.py lines 41-48): a row matching
`ticker = ? AND status = 'OPEN'` gets `exit_price`, `exit_timestamp`,
`profit_loss = exit_price - entry_price` and `status = 'CLOSED'`; any
other row is untouched. -/
def close_row (ticker : String) (exit_price now : ℚ) (r : PosRow) : PosRow :=
  if r.ticker = ticker ∧ r.status = PosStatus.OPEN then
    { r with exit_price := some exit_price
             exit_timestamp := some now
             profit_loss := some (exit_price - r.entry_price)
             status := PosStatus.CLOSED }
  else r

/-- `close_position` (src/positions.py lines 37-51): the SQL `UPDATE`
applies `close_row` to every row of the table. -/
def close_position (ticker : String) (exit_price now : ℚ)
    (db : List PosRow) : List PosRow :=
  db.map (close_row ticker exit_price now)

/-- `get_open_positions` (src/positions.py lines 54-59). -/
def get_open_positions (db : List PosRow) : List PosRow :=
  db.filter (fun r => r.status = PosStatus.OPEN)

/-- A ledger operation: one call to `open_position` or `close_position`. -/
inductive LedgerOp
  | openOp (ticker player_name market_type : String)
      (entry_price entry_edge now : ℚ) (tournament_name : Option String)
  | closeOp (ticker : String) (exit_price now : ℚ)

/-- Apply one ledger operation to the positions table (the `Bool` result of
`open_position` is discarded). -/
def applyOp (db : List PosRow) : LedgerOp → List PosRow
  | LedgerOp.openOp t p m ep ee now tn => (open_position t p m ep ee now tn db).2
  | LedgerOp.closeOp t xp now => close_position t xp now db

/-- Apply a sequence of ledger operations, oldest first. -/
def applyOps (db : List PosRow) (ops : List LedgerOp) : List PosRow :=
  ops.foldl applyOp db

/-- A concrete CLOSED row for ticker `"T"`, used as a test state. -/
def sample_closed_row : PosRow :=
  { ticker := "T"
    player_name := "P"
    market_type := "winner"
    entry_price := 40
    entry_edge := 9
    entry_timestamp := 1
    exit_price := some 100
    exit_timestamp := some 2
    profit_loss := some 60
    status := PosStatus.CLOSED
    tournament_name := none }

/-- A concrete OPEN `top5` position for ticker `"T5"`, used as a test
state. -/
def sample_top5_row : PosRow :=
  { ticker := "T5"
    player_name := "Q"
    market_type := "top5"
    entry_price := 35
    entry_edge := 10
    entry_timestamp := 4
    exit_price := none
    exit_timestamp := none
    profit_loss := none
    status := PosStatus.OPEN
    tournament_name := none }

/-! ## DecisionAgent — src/agent.py -/

/-- The structured part of an agent verdict (src/agent.py): `decision`,
`confidence`, `suggested_stake_pct`.  The free-text `reasoning` field
(an f-string over floats) carries no claim-relevant content and is
omitted. -/
structure AgentDecision where
  decision : String
  confidence : ℚ
  suggested_stake_pct : ℚ
deriving DecidableEq, Repr

/-- `_fallback_decision` (src/agent.py lines 190-204). -/
def fallback_decision (edge_pct : ℚ) : AgentDecision :=
  if 15 ≤ |edge_pct| then
    { decision := "BET", confidence := 1/2, suggested_stake_pct := 1 }
  else
    { decision := "WATCH", confidence := 3/10, suggested_stake_pct := 0 }

/-- Outcome of the Anthropic API call and of the response parse inside
`evaluate_opportunity` (src/agent.py lines 144-187), at the granularity of
the exception class each step can raise and of whether the local `text`
has already been bound when the parse step fails:
* `transportFailure` — the request step raises
  `requests.RequestException` (caught at line 162).
* `contentKeyError` — `data["content"][0]["text"]` (line 168) raises
  `KeyError` (the `"content"` or `"text"` key is missing), before `text`
  is bound.
* `emptyContentList` — line 168 raises `IndexError` (the content list is
  empty).
* `unparsableText` — `text` is bound but `json.loads` (line 174) raises
  `json.JSONDecodeError`.
* `nonDictVerdict` — `json.loads` yields a non-dict value, so
  `result["decision"]` (line 177) raises `TypeError`.
* `missingDecisionKey` — the verdict dict has no `"decision"` key, so
  line 177 raises `KeyError` (with `text` bound).
* `invalidDecision` — the decision is not in BET/PASS/WATCH, so the
  `assert` at line 177 raises `AssertionError`.
* `invalidConfidence` — `float(result.get("confidence", 0.5))` (line 178)
  raises `ValueError` on a non-numeric value.
* `parsed d` — every step succeeded with validated verdict `d`. -/
inductive AgentApiOutcome
  | transportFailure
  | contentKeyError
  | emptyContentList
  | unparsableText
  | nonDictVerdict
  | missingDecisionKey
  | invalidDecision
  | invalidConfidence
  | parsed (d : AgentDecision)

/-- Python exceptions that can escape `evaluate_opportunity`
(src/agent.py lines 166-187) uncaught. -/
inductive PyExn
  | UnboundLocalError
  | IndexError
  | TypeError
  | ValueError
deriving DecidableEq, Repr

/-- The Kelly recommendation fields consulted by `evaluate_opportunity`
(src/agent.py lines 180-181): `stake_pct` and `is_positive_ev` from
`format_stake_recommendation`. -/
structure KellyRec where
  stake_pct : ℚ
  is_positive_ev : Bool
deriving DecidableEq, Repr

/-- The result logic of `evaluate_opportunity` (src/agent.py lines
144-187), including its exception paths.  The first `except` (line 162)
returns `_fallback_decision(edge_pct)` on transport failure.  The parse
`try`'s handler (line 185) catches only
`JSONDecodeError`/`KeyError`/`AssertionError`, and before returning the
fallback it logs an f-string that reads `text[:200]` (line 186): a
`KeyError` raised at line 168, before `text` was bound, therefore makes
the handler itself raise `UnboundLocalError`, which propagates out of the
function; `IndexError` (line 168), `TypeError` (line 177) and
`ValueError` (line 178) are not in the catch tuple and propagate
directly.  On a fully parsed verdict the suggested stake is overridden by
the Kelly recommendation when it is positive-EV (lines 180-183). -/
def evaluate_opportunity (outcome : AgentApiOutcome) (edge_pct : ℚ)
    (kelly_rec : Option KellyRec) : Except PyExn AgentDecision :=
  match outcome with
  | AgentApiOutcome.transportFailure => Except.ok (fallback_decision edge_pct)
  | AgentApiOutcome.contentKeyError => Except.error PyExn.UnboundLocalError
  | AgentApiOutcome.emptyContentList => Except.error PyExn.IndexError
  | AgentApiOutcome.unparsableText => Except.ok (fallback_decision edge_pct)
  | AgentApiOutcome.nonDictVerdict => Except.error PyExn.TypeError
  | AgentApiOutcome.missingDecisionKey => Except.ok (fallback_decision edge_pct)
  | AgentApiOutcome.invalidDecision => Except.ok (fallback_decision edge_pct)
  | AgentApiOutcome.invalidConfidence => Except.error PyExn.ValueError
  | AgentApiOutcome.parsed d =>
      match kelly_rec with
      | some k =>
          if k.is_positive_ev then
            Except.ok { d with suggested_stake_pct := k.stake_pct }
          else Except.ok d
      | none => Except.ok d

/-! ## Settlement reconciliation — src/positions.py lines 120-154 and
src/main.py lines 330-390 -/

/-- Outcome of the `GET /markets/{ticker}` lookup: the request may raise
(modelled `failure`), or return a market payload whose `status` and
`result` fields are read with `.get(..., "")` defaults. -/
inductive MarketLookup
  | failure
  | ok (status : String) (result : String)

/-- The settled-status test `status in ("settled", "finalized", "closed")`
(src/positions.py line 138, src/main.py line 382). -/
def is_terminal_status (status : String) : Bool :=
  status = "settled" || status = "finalized" || status = "closed"

/-- `settle_open_positions` (src/positions.py lines 120-154): for every
OPEN position, look the market up; if the lookup succeeds and the status is
terminal, close at 100 when `result == "yes"` and 0 otherwise; on lookup
failure record a per-position error and leave the position open.  Returns
the new table together with the `settled` count, the `still_open` count and
the error tickers. -/
def settle_open_positions (lookup : String → MarketLookup) (now : ℚ)
    (db : List PosRow) : List PosRow × ℕ × ℕ × List String :=
  (get_open_positions db).foldl
    (fun acc pos =>
      match lookup pos.ticker with
      | MarketLookup.failure =>
          (acc.1, acc.2.1, acc.2.2.1 + 1, acc.2.2.2 ++ [pos.ticker])
      | MarketLookup.ok status result =>
          if is_terminal_status status then
            (close_position pos.ticker (if result = "yes" then 100 else 0) now acc.1,
             acc.2.1 + 1, acc.2.2.1, acc.2.2.2)
          else
            (acc.1, acc.2.1, acc.2.2.1 + 1, acc.2.2.2))
    (db, 0, 0, [])

/-- The position-checking loop `_check_positions` (src/main.py lines
330-390) as it acts on the positions table.  For each OPEN position: a
position whose `market_type` is not `"winner"` is skipped outright (the
`continue` at lines 348-350 precedes both branches); a position whose
ticker is among the discovered markets goes through the early-exit branch
(lines 352-375), which consults only already-fetched quotes and closes via
`close_position` when an exit condition fires — that branch is independent
of settlement and is modelled here by the supplied `earlyExit` oracle
giving the exit price, `none` meaning no exit; a position whose ticker is
absent is checked for settlement (lines 376-390): on a terminal status it
is closed at 100/0 by `result`, on lookup failure nothing happens. -/
def check_positions (markets : List String)
    (earlyExit : String → Option ℚ) (lookup : String → MarketLookup)
    (now : ℚ) (db : List PosRow) : List PosRow :=
  (get_open_positions db).foldl
    (fun acc pos =>
      if pos.market_type ≠ "winner" then acc
      else if markets.contains pos.ticker then
        match earlyExit pos.ticker with
        | some exit_price => close_position pos.ticker exit_price now acc
        | none => acc
      else
        match lookup pos.ticker with
        | MarketLookup.failure => acc
        | MarketLookup.ok status result =>
            if is_terminal_status status then
              close_position pos.ticker (if result = "yes" then 100 else 0) now acc
            else acc)
    db

/-! ## Helper lemmas -/

/-- The breakeven probability `price_cents/100` is positive for a price in
range. -/
lemma breakeven_pos {pc : ℤ} (h0 : 0 < pc) : (0:ℚ) < (pc:ℚ)/100 := by
  have : (0:ℚ) < (pc:ℚ) := by exact_mod_cast h0
  positivity

/-- The breakeven probability `price_cents/100` is below 1 for a price in
range. -/
lemma breakeven_lt_one {pc : ℤ} (h100 : pc < 100) : (pc:ℚ)/100 < 1 := by
  rw [div_lt_one (by norm_num : (0:ℚ) < 100)]
  exact_mod_cast h100

/-- Closed form of the full-Kelly fraction: for an in-range price,
`f* = (p - breakeven) / (1 - breakeven)`. -/
lemma kelly_f_star_eq {pc : ℤ} (h0 : 0 < pc) (h100 : pc < 100) (p : ℚ) :
    kelly_f_star p pc = (p - (pc:ℚ)/100) / (1 - (pc:ℚ)/100) := by
  have hc0 : (0:ℚ) < (pc:ℚ)/100 := breakeven_pos h0
  have hc1 : (pc:ℚ)/100 < 1 := breakeven_lt_one h100
  have h1 : ((pc:ℚ)/100) ≠ 0 := ne_of_gt hc0
  have h2 : (1 - (pc:ℚ)/100) ≠ 0 := by linarith
  unfold kelly_f_star
  field_simp
  ring

/-- Below or at breakeven the Kelly stake is zero. -/
lemma kelly_stake_of_le {pc : ℤ} (h0 : 0 < pc) (h100 : pc < 100) {p : ℚ}
    (hp : p ≤ (pc:ℚ)/100) : kelly_stake p pc (1/4) (1/20) = 0 := by
  have hc1 : (pc:ℚ)/100 < 1 := breakeven_lt_one h100
  by_cases hp0 : p ≤ 0
  · rw [kelly_stake, if_pos (Or.inr (Or.inr (Or.inl hp0)))]
  · have hguard : ¬(pc ≤ 0 ∨ 100 ≤ pc ∨ p ≤ 0 ∨ 1 ≤ p) := by
      push_neg
      exact ⟨h0, h100, lt_of_not_le hp0, lt_of_le_of_lt hp hc1⟩
    rw [kelly_stake, if_neg hguard]
    simp only [kelly_f_star_eq h0 h100]
    rw [if_pos]
    exact div_nonpos_of_nonpos_of_nonneg (by linarith) (by linarith)

/-- Above breakeven (and below certainty) the Kelly stake is the capped
quarter of the closed-form `f*`. -/
lemma kelly_stake_of_gt {pc : ℤ} (h0 : 0 < pc) (h100 : pc < 100) {p : ℚ}
    (hp : (pc:ℚ)/100 < p) (hp1 : p < 1) :
    kelly_stake p pc (1/4) (1/20) =
      min ((p - (pc:ℚ)/100) / (1 - (pc:ℚ)/100) * (1/4)) (1/20) := by
  have hc0 : (0:ℚ) < (pc:ℚ)/100 := breakeven_pos h0
  have hguard : ¬(pc ≤ 0 ∨ 100 ≤ pc ∨ p ≤ 0 ∨ 1 ≤ p) := by
    push_neg
    exact ⟨h0, h100, lt_trans hc0 hp, hp1⟩
  rw [kelly_stake, if_neg hguard]
  simp only [kelly_f_star_eq h0 h100]
  rw [if_neg]
  exact not_le.mpr (div_pos (by linarith) (by linarith))

/-- The Kelly stake never exceeds a nonnegative cap. -/
lemma kelly_stake_le_cap (p : ℚ) (pc : ℤ) (kf : ℚ) {mx : ℚ} (hmx : 0 ≤ mx) :
    kelly_stake p pc kf mx ≤ mx := by
  rw [kelly_stake]
  split_ifs with h1
  · exact hmx
  · simp only
    split_ifs with h2
    · exact hmx
    · exact min_le_right _ _

/-! ## Claim C2 — src/kelly.py -/

/-- Claim C2, counterexample: the claim asserts `kelly_stake` is strictly
increasing in `p` above breakeven, but the `max_stake_pct` cap makes it
constant once the cap binds: at price 50¢ (breakeven 1/2), both `p = 9/10`
and `p = 19/20` yield exactly the cap `1/20`. -/
theorem kelly_stake_cap_counterexample :
    kelly_edge_required 50 = 1/2 ∧ ((1:ℚ)/2) < 9/10 ∧ ((9:ℚ)/10) < 19/20 ∧
    kelly_stake (9/10) 50 (1/4) (1/20) = 1/20 ∧
    kelly_stake (19/20) 50 (1/4) (1/20) = 1/20 := by
  norm_num [kelly_stake, kelly_f_star, kelly_edge_required]

/-- Claim C2, amended: for every in-range price, `kelly_stake` at the
default quarter-Kelly fraction and 0.05 cap is 0 for every
`p ≤ breakeven = price_cents/100`, is nondecreasing in `p` above breakeven
and strictly increasing there as long as the result stays below the
`max_stake_pct` cap, and never exceeds `max_stake_pct`. -/
theorem kelly_stake_zero_monotone_capped (pc : ℤ) (h0 : 0 < pc) (h100 : pc < 100) :
    kelly_edge_required pc = (pc:ℚ)/100 ∧
    (∀ p : ℚ, p ≤ (pc:ℚ)/100 → kelly_stake p pc (1/4) (1/20) = 0) ∧
    (∀ p₁ p₂ : ℚ, (pc:ℚ)/100 < p₁ → p₁ < p₂ → p₂ < 1 →
      kelly_stake p₁ pc (1/4) (1/20) ≤ kelly_stake p₂ pc (1/4) (1/20) ∧
      (kelly_stake p₂ pc (1/4) (1/20) < 1/20 →
        kelly_stake p₁ pc (1/4) (1/20) < kelly_stake p₂ pc (1/4) (1/20))) ∧
    (∀ p : ℚ, kelly_stake p pc (1/4) (1/20) ≤ 1/20) := by
  have hc0 : (0:ℚ) < (pc:ℚ)/100 := breakeven_pos h0
  have hc1 : (pc:ℚ)/100 < 1 := breakeven_lt_one h100
  refine ⟨?_, fun p hp => kelly_stake_of_le h0 h100 hp,
    fun p₁ p₂ h1 h12 h21 => ?_, fun p => kelly_stake_le_cap _ _ _ (by norm_num)⟩
  · rw [kelly_edge_required, if_neg]
    push_neg
    exact ⟨h0, h100⟩
  · have hp1 : (pc:ℚ)/100 < p₂ := lt_trans h1 h12
    have hlt1 : p₁ < 1 := lt_trans h12 h21
    rw [kelly_stake_of_gt h0 h100 h1 hlt1, kelly_stake_of_gt h0 h100 hp1 h21]
    have hden : (0:ℚ) < 1 - (pc:ℚ)/100 := by linarith
    have hfs : (p₁ - (pc:ℚ)/100) / (1 - (pc:ℚ)/100) * (1/4) <
        (p₂ - (pc:ℚ)/100) / (1 - (pc:ℚ)/100) * (1/4) := by
      have := (div_lt_div_iff_of_pos_right hden).mpr (by linarith :
        p₁ - (pc:ℚ)/100 < p₂ - (pc:ℚ)/100)
      linarith
    constructor
    · exact min_le_min (le_of_lt hfs) le_rfl
    · intro hcap
      have h2' : (p₂ - (pc:ℚ)/100) / (1 - (pc:ℚ)/100) * (1/4) < 1/20 := by
        rcases min_lt_iff.mp hcap with h | h
        · exact h
        · exact absurd h (lt_irrefl _)
      calc min ((p₁ - (pc:ℚ)/100) / (1 - (pc:ℚ)/100) * (1/4)) (1/20)
          ≤ (p₁ - (pc:ℚ)/100) / (1 - (pc:ℚ)/100) * (1/4) := min_le_left _ _
        _ < (p₂ - (pc:ℚ)/100) / (1 - (pc:ℚ)/100) * (1/4) := hfs
        _ = min ((p₂ - (pc:ℚ)/100) / (1 - (pc:ℚ)/100) * (1/4)) (1/20) :=
            (min_eq_left (le_of_lt h2')).symm

/-- Claim C2, witness: the amended theorem instantiated at price 18¢ with
concrete probabilities on each side of breakeven. -/
theorem kelly_stake_zero_monotone_capped_witness :
    (0:ℤ) < 18 ∧ (18:ℤ) < 100 ∧
    kelly_stake (1/10) 18 (1/4) (1/20) = 0 ∧
    kelly_stake (3/10) 18 (1/4) (1/20) ≤ kelly_stake (35/100) 18 (1/4) (1/20) ∧
    kelly_stake (35/100) 18 (1/4) (1/20) ≤ 1/20 := by
  have h := kelly_stake_zero_monotone_capped 18 (by norm_num) (by norm_num)
  refine ⟨by norm_num, by norm_num, h.2.1 (1/10) (by norm_num), ?_, h.2.2.2 _⟩
  exact (h.2.2.1 (3/10) (35/100) (by norm_num) (by norm_num) (by norm_num)).1

/-! ## Claim C3 — src/tournament_state.py -/

/-- Claim C3, counterexample: the claim asserts `detect_phase` returns
`PRE_TOURNAMENT` or `IDLE` if and only if the live-probabilities map is
empty, but the live branch also requires a non-empty leaderboard: with
non-empty live probabilities and an empty leaderboard the function falls
through and returns `IDLE`. -/
theorem detect_phase_live_without_leaderboard_counterexample :
    (["Scottie Scheffler"] : List String) ≠ [] ∧
    (detect_phase ["Scottie Scheffler"] none []).1 = TournamentPhase.IDLE := by
  constructor
  · simp
  · rfl

/-- Claim C3, amended: `detect_phase` returns `PRE_TOURNAMENT` or `IDLE`
if and only if the live-probabilities map is empty or the leaderboard is
empty; in that case it returns `PRE_TOURNAMENT` exactly when the
pre-tournament data is present with more than the tournament-name key
(length > 1) and `IDLE` otherwise; when both live probabilities and
leaderboard are non-empty it returns one of `FINISHED`, `LIVE_ROUND`,
`BETWEEN_ROUNDS` via the modal-round decision tree. -/
theorem detect_phase_partition_amended (live : List String)
    (pre : Option (List String)) (lb : List (String × LBEntry)) :
    (((detect_phase live pre lb).1 = TournamentPhase.PRE_TOURNAMENT ∨
      (detect_phase live pre lb).1 = TournamentPhase.IDLE) ↔
        (live = [] ∨ lb = [])) ∧
    ((live = [] ∨ lb = []) →
      ((detect_phase live pre lb).1 = TournamentPhase.PRE_TOURNAMENT ↔
        ∃ l, pre = some l ∧ 1 < l.length)) ∧
    (live ≠ [] → lb ≠ [] →
      ((detect_phase live pre lb).1 = TournamentPhase.FINISHED ∨
       (detect_phase live pre lb).1 = TournamentPhase.LIVE_ROUND ∨
       (detect_phase live pre lb).1 = TournamentPhase.BETWEEN_ROUNDS)) := by
  by_cases h : live ≠ [] ∧ lb ≠ []
  · have h3 : (detect_phase live pre lb).1 = TournamentPhase.FINISHED ∨
        (detect_phase live pre lb).1 = TournamentPhase.LIVE_ROUND ∨
        (detect_phase live pre lb).1 = TournamentPhase.BETWEEN_ROUNDS := by
      rw [detect_phase.eq_def, if_pos h]
      dsimp only
      split_ifs <;> simp
    have hnot : ¬((detect_phase live pre lb).1 = TournamentPhase.PRE_TOURNAMENT ∨
        (detect_phase live pre lb).1 = TournamentPhase.IDLE) := by
      rcases h3 with h3 | h3 | h3 <;> rw [h3] <;> simp
    have hE : ¬(live = [] ∨ lb = []) := by
      push_neg
      exact h
    exact ⟨iff_of_false hnot hE, fun hc => absurd hc hE, fun _ _ => h3⟩
  · have hE : live = [] ∨ lb = [] := by
      rcases not_and_or.mp h with h' | h'
      · exact Or.inl (not_not.mp h')
      · exact Or.inr (not_not.mp h')
    have heq : detect_phase live pre lb =
        if (match pre with | some l => decide (1 < l.length) | none => false) then
          (TournamentPhase.PRE_TOURNAMENT, 0)
        else (TournamentPhase.IDLE, 0) := by
      rw [detect_phase.eq_def, if_neg h]
    refine ⟨?_, fun _ => ?_, fun hlive hlb => absurd ⟨hlive, hlb⟩ h⟩
    · rw [heq]
      split_ifs <;> simp [hE]
    · rw [heq]
      match pre with
      | none => simp
      | some l =>
        by_cases hlen : 1 < l.length
        · simp [hlen]
        · simp [hlen]

/-- Claim C3, witness: the amended theorem instantiated at an empty-live
input with two pre-tournament keys (giving `PRE_TOURNAMENT`) and at a
non-empty live input with a mid-round leaderboard entry (giving one of the
three live phases). -/
theorem detect_phase_partition_amended_witness :
    (detect_phase [] (some ["_tournament_name", "PlayerA"]) []).1 =
      TournamentPhase.PRE_TOURNAMENT ∧
    ((detect_phase ["A"] none [("A", ⟨2, 9⟩)]).1 = TournamentPhase.FINISHED ∨
     (detect_phase ["A"] none [("A", ⟨2, 9⟩)]).1 = TournamentPhase.LIVE_ROUND ∨
     (detect_phase ["A"] none [("A", ⟨2, 9⟩)]).1 = TournamentPhase.BETWEEN_ROUNDS) := by
  constructor
  · exact ((detect_phase_partition_amended [] (some ["_tournament_name", "PlayerA"])
      []).2.1 (Or.inl rfl)).mpr ⟨_, rfl, by norm_num⟩
  · exact (detect_phase_partition_amended ["A"] none [("A", ⟨2, 9⟩)]).2.2
      (by simp) (by simp)

/-! ## Claim C4 — src/main.py, src/tournament_state.py, src/tui/scheduler.py -/

/-- Claim C4, counterexample: a cycle whose detected phase is
`BETWEEN_ROUNDS` has an active tournament, yet `main()` sleeps
`POLL_INTERVAL_SEC = 30`, not the table value
`get_poll_interval BETWEEN_ROUNDS = 1800`: the orchestrator's interval is
not selected from the phase table. -/
theorem main_interval_counterexample :
    (detect_phase ["A"] none [("A", ⟨2, 18⟩)]).1 = TournamentPhase.BETWEEN_ROUNDS ∧
    main_select_interval true = 30 ∧
    get_poll_interval TournamentPhase.BETWEEN_ROUNDS = 1800 ∧
    main_select_interval true ≠ get_poll_interval TournamentPhase.BETWEEN_ROUNDS := by
  refine ⟨rfl, rfl, rfl, by norm_num [main_select_interval, get_poll_interval,
    POLL_INTERVAL_SEC, POLL_INTERVAL_BETWEEN_ROUNDS_SEC]⟩

/-- Claim C4, amended: `main()` selects the next sleep interval from the
cycle's tournament-active flag alone — `POLL_INTERVAL_SEC` when active,
`NO_TOURNAMENT_INTERVAL` when not — and never consults the phase table;
the fixed phase → interval table lives in `get_poll_interval`
(`LIVE_ROUND` polls frequently at 30 s; `PRE_TOURNAMENT`,
`BETWEEN_ROUNDS`, `FINISHED`, `IDLE` poll rarely at 1800/3600 s) and is
consulted only by the TUI scheduler after a successful cycle. -/
theorem poll_interval_selection_amended :
    (∀ active : Bool, main_select_interval active =
      if active then POLL_INTERVAL_SEC else NO_TOURNAMENT_INTERVAL) ∧
    get_poll_interval TournamentPhase.LIVE_ROUND = POLL_INTERVAL_LIVE_SEC ∧
    get_poll_interval TournamentPhase.PRE_TOURNAMENT = POLL_INTERVAL_PRE_TOURNAMENT_SEC ∧
    get_poll_interval TournamentPhase.BETWEEN_ROUNDS = POLL_INTERVAL_BETWEEN_ROUNDS_SEC ∧
    get_poll_interval TournamentPhase.FINISHED = POLL_INTERVAL_IDLE_SEC ∧
    get_poll_interval TournamentPhase.IDLE = POLL_INTERVAL_IDLE_SEC ∧
    (∀ phase : TournamentPhase,
      scheduler_select_interval phase false = get_poll_interval phase) ∧
    POLL_INTERVAL_LIVE_SEC < POLL_INTERVAL_PRE_TOURNAMENT_SEC ∧
    POLL_INTERVAL_LIVE_SEC < POLL_INTERVAL_IDLE_SEC := by
  refine ⟨fun _ => rfl, rfl, rfl, rfl, rfl, rfl, fun _ => rfl, ?_, ?_⟩ <;>
    norm_num [POLL_INTERVAL_LIVE_SEC, POLL_INTERVAL_PRE_TOURNAMENT_SEC,
      POLL_INTERVAL_IDLE_SEC]

/-! ## Claim C5 — end-to-end example -/

/-- Claim C5, counterexample: at model probability 0.30 and price 18¢ the
code computes `f* = 6/41 ≈ 0.1463` and a stake of `3/82 ≈ 0.0366` of
bankroll, exceeding the claim's stated `f* ≈ 0.1413` and stake `≈ 0.0353`
by far more than rounding tolerance. -/
theorem pipeline_example_fstar_counterexample :
    kelly_f_star (3/10) 18 = 6/41 ∧
    kelly_stake (3/10) 18 (1/4) (1/20) = 3/82 ∧
    (1413:ℚ)/10000 + 1/1000 < 6/41 ∧
    (353:ℚ)/10000 + 1/2000 < 3/82 := by
  norm_num [kelly_f_star, kelly_stake]

/-- Claim C5, amended: with model probability 0.30, yes_ask = 18¢,
yes_bid = 13¢, round 4: edge% = 12.0; `min_edge(4) = 8/1.15 = 160/23 ≈
6.96` so the edge filter passes; spread = 5 ≤ 15 so the spread filter
passes; and quarter-Kelly with the 0.05 cap gives `f* = 6/41 ≈ 0.1463`
and a stake of `3/82 ≈ 0.0366` (≈ 3.66 % of bankroll, under the cap). -/
theorem pipeline_example_amended :
    edge_pct (3/10) (implied_probability 18) = 12 ∧
    get_min_edge_for_round 8 4 = 160/23 ∧
    passes_edge_filter (edge_pct (3/10) (implied_probability 18))
      (get_min_edge_for_round 8 4) = true ∧
    (18:ℚ) - 13 = 5 ∧ MAX_SPREAD = 15 ∧
    passes_spread_filter 18 13 = true ∧
    kelly_f_star (3/10) 18 = 6/41 ∧
    (1463:ℚ)/10000 - 1/2000 < 6/41 ∧ (6:ℚ)/41 < 1463/10000 + 1/2000 ∧
    kelly_stake (3/10) 18 (1/4) (1/20) = 3/82 ∧
    (366:ℚ)/10000 - 1/2000 < 3/82 ∧ (3:ℚ)/82 < 366/10000 + 1/2000 := by
  refine ⟨?_, ?_, ?_, by norm_num, by norm_num [MAX_SPREAD], ?_, ?_⟩
  · norm_num [edge_pct, implied_probability]
  · norm_num [get_min_edge_for_round, round_multiplier]
  · simp only [passes_edge_filter, Bool.not_eq_true', decide_eq_false_iff_not]
    norm_num [edge_pct, implied_probability, get_min_edge_for_round, round_multiplier]
  · simp only [passes_spread_filter, Bool.not_eq_true', decide_eq_false_iff_not]
    norm_num [MAX_SPREAD]
  · norm_num [kelly_f_star, kelly_stake]

/-! ## Claim C6 — src/edge_validator.py -/

/-- Claim C6: `validate_edge` assigns the confidence tier by the first
matching rule, in order: zero books available ⇒ medium; reference-book
(Pinnacle) edge ≥ 3 points and market edge ≥ 8 points ⇒ high;
reference-book edge < 0 ⇒ low; consensus edge < 0 ⇒ low; otherwise
medium — where the consensus is the mean of the available (non-null,
positive) book probabilities. -/
theorem validate_edge_confidence_rules (dg ki : ℚ)
    (bo : List (String × Option ℚ)) :
    (validate_edge dg ki bo).edge_vs_kalshi = (dg - ki) * 100 ∧
    (validate_edge dg ki bo).edge_vs_pinnacle =
      ((bo.lookup "pinnacle").join).map (fun pi => (dg - pi) * 100) ∧
    (validate_edge dg ki bo).consensus_implied =
      (if ((bo.map Prod.snd).filterMap id).filter (fun x => decide (0 < x)) = []
       then none
       else some ((((bo.map Prod.snd).filterMap id).filter
          (fun x => decide (0 < x))).sum /
         ((((bo.map Prod.snd).filterMap id).filter
          (fun x => decide (0 < x))).length : ℚ))) ∧
    (bo.length = 0 → (validate_edge dg ki bo).confidence = "medium") ∧
    (bo.length ≠ 0 →
      pinnacle_high_rule (validate_edge dg ki bo).edge_vs_pinnacle
        (validate_edge dg ki bo).edge_vs_kalshi = true →
      (validate_edge dg ki bo).confidence = "high") ∧
    (bo.length ≠ 0 →
      pinnacle_high_rule (validate_edge dg ki bo).edge_vs_pinnacle
        (validate_edge dg ki bo).edge_vs_kalshi = false →
      opt_negative (validate_edge dg ki bo).edge_vs_pinnacle = true →
      (validate_edge dg ki bo).confidence = "low") ∧
    (bo.length ≠ 0 →
      pinnacle_high_rule (validate_edge dg ki bo).edge_vs_pinnacle
        (validate_edge dg ki bo).edge_vs_kalshi = false →
      opt_negative (validate_edge dg ki bo).edge_vs_pinnacle = false →
      opt_negative (validate_edge dg ki bo).edge_vs_consensus = true →
      (validate_edge dg ki bo).confidence = "low") ∧
    (bo.length ≠ 0 →
      pinnacle_high_rule (validate_edge dg ki bo).edge_vs_pinnacle
        (validate_edge dg ki bo).edge_vs_kalshi = false →
      opt_negative (validate_edge dg ki bo).edge_vs_pinnacle = false →
      opt_negative (validate_edge dg ki bo).edge_vs_consensus = false →
      (validate_edge dg ki bo).confidence = "medium") := by
  have hconf : (validate_edge dg ki bo).confidence =
      (if bo.length = 0 then "medium"
       else if pinnacle_high_rule (validate_edge dg ki bo).edge_vs_pinnacle
           (validate_edge dg ki bo).edge_vs_kalshi = true then "high"
       else if opt_negative (validate_edge dg ki bo).edge_vs_pinnacle = true then "low"
       else if opt_negative (validate_edge dg ki bo).edge_vs_consensus = true then "low"
       else "medium") := rfl
  refine ⟨rfl, rfl, rfl, fun h0 => ?_, fun h0 h2 => ?_, fun h0 h2 h3 => ?_,
    fun h0 h2 h3 h4 => ?_, fun h0 h2 h3 h4 => ?_⟩
  · rw [hconf, if_pos h0]
  · rw [hconf, if_neg h0, if_pos h2]
  · rw [hconf, if_neg h0, if_neg (by simp [h2]), if_pos h3]
  · rw [hconf, if_neg h0, if_neg (by simp [h2]), if_neg (by simp [h3]), if_pos h4]
  · rw [hconf, if_neg h0, if_neg (by simp [h2]), if_neg (by simp [h3]),
      if_neg (by simp [h4])]

/-- Claim C6, witness: the tiering rules instantiated at the spec's own
examples — zero books gives medium, Pinnacle edge 4 with market edge 10
gives high, Pinnacle edge −2 gives low. -/
theorem validate_edge_confidence_rules_witness :
    (validate_edge (1/2) (4/10) []).confidence = "medium" ∧
    (validate_edge (1/2) (4/10) [("pinnacle", some (46/100))]).confidence = "high" ∧
    (validate_edge (1/2) (4/10) [("pinnacle", some (52/100))]).confidence = "low" := by
  refine ⟨(validate_edge_confidence_rules (1/2) (4/10) []).2.2.2.1 rfl, ?_, ?_⟩
  · refine (validate_edge_confidence_rules (1/2) (4/10)
      [("pinnacle", some (46/100))]).2.2.2.2.1 (by simp) ?_
    norm_num [validate_edge, pinnacle_high_rule, List.lookup]
  · refine (validate_edge_confidence_rules (1/2) (4/10)
      [("pinnacle", some (52/100))]).2.2.2.2.2.1 (by simp) ?_ ?_
    · norm_num [validate_edge, pinnacle_high_rule, List.lookup]
    · norm_num [validate_edge, opt_negative, List.lookup]

/-! ## Ledger helper lemmas -/

/-- `close_row` never changes a row's ticker. -/
lemma close_row_ticker (t : String) (xp now : ℚ) (r : PosRow) :
    (close_row t xp now r).ticker = r.ticker := by
  rw [close_row]
  split_ifs <;> rfl

/-- `close_row` is idempotent, even with a different exit price and
timestamp the second time: a closed row no longer matches the
`status = 'OPEN'` condition. -/
lemma close_row_idem (t : String) (xp now xp₂ now₂ : ℚ) (r : PosRow) :
    close_row t xp₂ now₂ (close_row t xp now r) = close_row t xp now r := by
  by_cases h : r.ticker = t ∧ r.status = PosStatus.OPEN
  · have hinner : close_row t xp now r =
        { r with exit_price := some xp
                 exit_timestamp := some now
                 profit_loss := some (xp - r.entry_price)
                 status := PosStatus.CLOSED } := by
      rw [close_row, if_pos h]
    rw [hinner, close_row, if_neg]
    simp
  · have hinner : close_row t xp now r = r := by
      rw [close_row, if_neg h]
    rw [hinner, close_row, if_neg h]

/-- `open_position` fails with no state change whenever any row with the
same ticker exists, whatever its status (the `UNIQUE` constraint on
`ticker`). -/
lemma open_position_blocked {db : List PosRow} {t : String}
    (h : ∃ r ∈ db, r.ticker = t) (p m : String) (ep ee now : ℚ)
    (tn : Option String) :
    open_position t p m ep ee now tn db = (false, db) := by
  have hany : (db.any fun r => decide (r.ticker = t)) = true := by
    rw [List.any_eq_true]
    obtain ⟨r, hr, ht⟩ := h
    exact ⟨r, hr, by simp [ht]⟩
  rw [open_position, if_pos hany]

/-! ## Claim C1 — src/positions.py, src/database.py -/

/-- Claim C1, counterexample: the claim says `open_position` fails if and
only if a row for the ticker is already OPEN, but the storage `UNIQUE`
constraint is on the ticker alone: against a table holding only a CLOSED
row for `"T"`, opening `"T"` still reports failure and changes nothing,
although no OPEN row exists. -/
theorem open_position_closed_row_counterexample :
    (open_position "T" "P2" "winner" 20 5 3 none [sample_closed_row]).1 = false ∧
    (open_position "T" "P2" "winner" 20 5 3 none [sample_closed_row]).2 =
      [sample_closed_row] ∧
    sample_closed_row.status = PosStatus.CLOSED ∧
    (¬ ∃ r ∈ [sample_closed_row], r.status = PosStatus.OPEN) := by
  have h := open_position_blocked
    (show ∃ r ∈ [sample_closed_row], r.ticker = "T" from
      ⟨sample_closed_row, by simp, rfl⟩) "P2" "winner" 20 5 3 none
  refine ⟨by rw [h], by rw [h], rfl, by simp [sample_closed_row]⟩

/-- Claim C1, amended: `open_position` inserts a new OPEN row and reports
success if and only if no row for this ticker exists at all; it fails
silently (returns false, no state change) exactly when a row for the
ticker already exists, whether OPEN or CLOSED.  In particular, opening
twice on the same ticker leaves exactly one OPEN row for it and the second
call reports not opened. -/
theorem open_position_uniqueness_amended (db : List PosRow) (t p m : String)
    (ep ee now : ℚ) (tn : Option String) :
    ((open_position t p m ep ee now tn db).1 = true ↔ ¬ ∃ r ∈ db, r.ticker = t) ∧
    ((∃ r ∈ db, r.ticker = t) → open_position t p m ep ee now tn db = (false, db)) ∧
    ((¬ ∃ r ∈ db, r.ticker = t) →
      open_position t p m ep ee now tn db =
        (true, db ++ [{ ticker := t
                        player_name := p
                        market_type := m
                        entry_price := ep
                        entry_edge := ee
                        entry_timestamp := now
                        exit_price := none
                        exit_timestamp := none
                        profit_loss := none
                        status := PosStatus.OPEN
                        tournament_name := tn }]) ∧
      (∀ p₂ m₂ : String, ∀ ep₂ ee₂ now₂ : ℚ, ∀ tn₂ : Option String,
        open_position t p₂ m₂ ep₂ ee₂ now₂ tn₂
            (open_position t p m ep ee now tn db).2 =
          (false, (open_position t p m ep ee now tn db).2)) ∧
      ((open_position t p m ep ee now tn db).2.filter
        (fun r => decide (r.ticker = t) &&
          decide (r.status = PosStatus.OPEN))).length = 1) := by
  by_cases hex : ∃ r ∈ db, r.ticker = t
  · have hres := open_position_blocked hex p m ep ee now tn
    refine ⟨iff_of_false (by rw [hres]; simp) (not_not_intro hex),
      fun _ => hres, fun hno => absurd hex hno⟩
  · have hany : (db.any fun r => decide (r.ticker = t)) = false := by
      simp only [List.any_eq_false, decide_eq_true_eq]
      intro r hr h
      exact hex ⟨r, hr, h⟩
    have hres : open_position t p m ep ee now tn db =
        (true, db ++ [{ ticker := t
                        player_name := p
                        market_type := m
                        entry_price := ep
                        entry_edge := ee
                        entry_timestamp := now
                        exit_price := none
                        exit_timestamp := none
                        profit_loss := none
                        status := PosStatus.OPEN
                        tournament_name := tn }]) := by
      rw [open_position, if_neg (by simp [hany])]
    refine ⟨iff_of_true (by rw [hres]) hex, fun h => absurd h hex,
      fun _ => ⟨hres, ?_, ?_⟩⟩
    · intro p₂ m₂ ep₂ ee₂ now₂ tn₂
      apply open_position_blocked
      rw [hres]
      exact ⟨_, List.mem_append_right _ (List.mem_singleton_self _), rfl⟩
    · rw [hres]
      simp only [List.filter_append]
      have h1 : db.filter (fun r => decide (r.ticker = t) &&
          decide (r.status = PosStatus.OPEN)) = [] := by
        rw [List.filter_eq_nil_iff]
        intro r hr
        simp only [Bool.and_eq_true, decide_eq_true_eq, not_and]
        intro h' _
        exact hex ⟨r, hr, h'⟩
      rw [h1]
      simp

/-- Claim C1, witness: opening ticker `"W"` on an empty table succeeds, a
second open on the same ticker reports failure without changing the table,
and exactly one OPEN row for `"W"` remains. -/
theorem open_position_uniqueness_amended_witness :
    (open_position "W" "P" "winner" 20 5 1 none []).1 = true ∧
    open_position "W" "P2" "winner" 25 6 2 none
        (open_position "W" "P" "winner" 20 5 1 none []).2 =
      (false, (open_position "W" "P" "winner" 20 5 1 none []).2) ∧
    ((open_position "W" "P" "winner" 20 5 1 none []).2.filter
      (fun r => decide (r.ticker = "W") &&
        decide (r.status = PosStatus.OPEN))).length = 1 := by
  have h := (open_position_uniqueness_amended [] "W" "P" "winner" 20 5 1 none).2.2
    (by simp)
  exact ⟨(open_position_uniqueness_amended [] "W" "P" "winner" 20 5 1 none).1.mpr
    (by simp), h.2.1 "P2" "winner" 25 6 2 none, h.2.2⟩

/-! ## Claim C7 — src/positions.py -/

/-- Claim C7: `close_position` sets status CLOSED,
`profit = exit_price - entry_price` and the exit timestamp on the OPEN row
for the ticker; a second close call on the same ticker (with any exit
price) changes no state, and a close on a ticker with no open position
changes no state. -/
theorem close_position_lifecycle (db : List PosRow) (t : String) (xp now : ℚ) :
    (∀ xp₂ now₂ : ℚ, close_position t xp₂ now₂ (close_position t xp now db) =
      close_position t xp now db) ∧
    ((¬ ∃ r ∈ db, r.ticker = t ∧ r.status = PosStatus.OPEN) →
      close_position t xp now db = db) ∧
    (∀ r ∈ db, r.ticker = t → r.status = PosStatus.OPEN →
      ({ r with exit_price := some xp
                exit_timestamp := some now
                profit_loss := some (xp - r.entry_price)
                status := PosStatus.CLOSED } : PosRow) ∈ close_position t xp now db) := by
  refine ⟨fun xp₂ now₂ => ?_, fun hno => ?_, fun r hr ht hs => ?_⟩
  · simp only [close_position, List.map_map]
    exact List.map_congr_left (fun r _ => close_row_idem t xp now xp₂ now₂ r)
  · simp only [close_position]
    have hid : ∀ r ∈ db, close_row t xp now r = r := by
      intro r hr
      rw [close_row, if_neg]
      exact fun hc => hno ⟨r, hr, hc⟩
    calc db.map (close_row t xp now) = db.map id := List.map_congr_left hid
      _ = db := List.map_id db
  · have heq : close_row t xp now r =
        { r with exit_price := some xp
                 exit_timestamp := some now
                 profit_loss := some (xp - r.entry_price)
                 status := PosStatus.CLOSED } := by
      rw [close_row, if_pos ⟨ht, hs⟩]
    exact heq ▸ List.mem_map_of_mem _ hr

/-- Claim C7, witness: closing the open `"T5"` position at 50¢ produces a
CLOSED row with profit `50 - 35`; immediately closing again (even at a
different price) changes nothing; closing a ticker whose only row is
already CLOSED changes nothing. -/
theorem close_position_lifecycle_witness :
    ({ sample_top5_row with
        exit_price := some (50:ℚ)
        exit_timestamp := some 7
        profit_loss := some ((50:ℚ) - sample_top5_row.entry_price)
        status := PosStatus.CLOSED } : PosRow) ∈
      close_position "T5" 50 7 [sample_top5_row] ∧
    close_position "T5" 60 8 (close_position "T5" 50 7 [sample_top5_row]) =
      close_position "T5" 50 7 [sample_top5_row] ∧
    close_position "T" 50 7 [sample_closed_row] = [sample_closed_row] := by
  refine ⟨(close_position_lifecycle [sample_top5_row] "T5" 50 7).2.2
      sample_top5_row (by simp) rfl rfl,
    (close_position_lifecycle [sample_top5_row] "T5" 50 7).1 60 8,
    (close_position_lifecycle [sample_closed_row] "T" 50 7).2.1 ?_⟩
  simp [sample_closed_row]

/-! ## Claim C8 — src/main.py `_check_positions`, src/positions.py
`settle_open_positions` -/

/-- Claim C8, failing input: an OPEN `top5` position whose ticker is
absent from the discovered markets and whose market has settled `"yes"`.
The per-cycle reconciliation `_check_positions` skips every position whose
market type is not `"winner"` before reaching the settlement branch, so
the position is left untouched — it is never queried and never closed at
100 as the claim requires — whereas the (never invoked) helper
`settle_open_positions` would close it exactly as the claim describes. -/
theorem check_positions_skips_non_winner_settlement :
    check_positions [] (fun _ => none) (fun _ => MarketLookup.ok "settled" "yes") 9
      [sample_top5_row] = [sample_top5_row] ∧
    sample_top5_row.status = PosStatus.OPEN ∧
    sample_top5_row.market_type ≠ "winner" ∧
    sample_top5_row.ticker ∉ ([] : List String) ∧
    is_terminal_status "settled" = true ∧
    close_position "T5" 100 9 [sample_top5_row] ≠ [sample_top5_row] ∧
    (settle_open_positions (fun _ => MarketLookup.ok "settled" "yes") 9
      [sample_top5_row]).1 = close_position "T5" 100 9 [sample_top5_row] := by
  refine ⟨rfl, rfl, by simp [sample_top5_row], by simp, rfl, ?_, rfl⟩
  simp [close_position, close_row, sample_top5_row]

/-! ## Claim C9 — src/agent.py -/

/-- Claim C9, code bug: not every unparseable agent response yields the
deterministic fallback — several reachable parse failures crash
`evaluate_opportunity` instead.  A response body without the `"content"`
key raises `KeyError` before `text` is bound, and the handler's own log
f-string then raises `UnboundLocalError`, which propagates; an empty
content list raises an uncaught `IndexError`; a non-dict verdict raises
an uncaught `TypeError`; a non-numeric confidence raises an uncaught
`ValueError`.  Transport failures and the caught parse failures
(`JSONDecodeError` with `text` bound, missing-`"decision"` `KeyError`,
`AssertionError`) do return the fallback, which is BET with confidence
0.5 and stake 1 % at `|edge| ≥ 15` and WATCH below. -/
theorem evaluate_opportunity_crash_on_unparseable :
    evaluate_opportunity AgentApiOutcome.contentKeyError 20 none =
      Except.error PyExn.UnboundLocalError ∧
    evaluate_opportunity AgentApiOutcome.emptyContentList 20 none =
      Except.error PyExn.IndexError ∧
    evaluate_opportunity AgentApiOutcome.nonDictVerdict 20 none =
      Except.error PyExn.TypeError ∧
    evaluate_opportunity AgentApiOutcome.invalidConfidence 20 none =
      Except.error PyExn.ValueError ∧
    evaluate_opportunity AgentApiOutcome.contentKeyError 20 none ≠
      Except.ok (fallback_decision 20) ∧
    evaluate_opportunity AgentApiOutcome.transportFailure 20 none =
      Except.ok (fallback_decision 20) ∧
    evaluate_opportunity AgentApiOutcome.unparsableText 20 none =
      Except.ok (fallback_decision 20) ∧
    evaluate_opportunity AgentApiOutcome.missingDecisionKey 20 none =
      Except.ok (fallback_decision 20) ∧
    evaluate_opportunity AgentApiOutcome.invalidDecision 20 none =
      Except.ok (fallback_decision 20) ∧
    fallback_decision 20 =
      { decision := "BET", confidence := 1/2, suggested_stake_pct := 1 } ∧
    (fallback_decision 5).decision = "WATCH" := by
  refine ⟨rfl, rfl, rfl, rfl, by simp [evaluate_opportunity], rfl, rfl, rfl, rfl,
    ?_, ?_⟩
  · rw [fallback_decision, if_pos]
    rw [abs_of_pos] <;> norm_num
  · rw [fallback_decision, if_neg]
    rw [abs_of_pos] <;> norm_num

/-! ## Claim C10 — src/database.py schema, src/positions.py -/

/-- Any state reachable by ledger operations from a state containing a row
for ticker `t` still contains a row for `t`. -/
lemma applyOp_ticker_mem {db : List PosRow} {t : String}
    (h : ∃ r ∈ db, r.ticker = t) (op : LedgerOp) :
    ∃ r ∈ applyOp db op, r.ticker = t := by
  cases op with
  | openOp t' p' m' ep' ee' now' tn' =>
    simp only [applyOp, open_position]
    split_ifs with hc
    · exact h
    · obtain ⟨r, hr, ht⟩ := h
      exact ⟨r, List.mem_append_left _ hr, ht⟩
  | closeOp t' xp now =>
    obtain ⟨r, hr, ht⟩ := h
    refine ⟨close_row t' xp now r, ?_, by rw [close_row_ticker]; exact ht⟩
    simp only [applyOp, close_position]
    exact List.mem_map_of_mem _ hr

/-- Each ledger operation preserves pairwise-distinct tickers: a close
never changes tickers, and an open only appends a ticker that was not
present. -/
lemma applyOp_tickers_nodup {db : List PosRow} (op : LedgerOp)
    (h : (db.map PosRow.ticker).Nodup) :
    ((applyOp db op).map PosRow.ticker).Nodup := by
  cases op with
  | closeOp t xp now =>
    have heq : (applyOp db (LedgerOp.closeOp t xp now)).map PosRow.ticker =
        db.map PosRow.ticker := by
      simp only [applyOp, close_position, List.map_map]
      exact List.map_congr_left (fun r _ => close_row_ticker t xp now r)
    rw [heq]
    exact h
  | openOp t p m ep ee now tn =>
    simp only [applyOp, open_position]
    split_ifs with hc
    · exact h
    · simp only [List.map_append, List.map_cons, List.map_nil]
      rw [List.nodup_append]
      refine ⟨h, List.nodup_singleton _, ?_⟩
      intro a ha hb
      rw [List.mem_singleton] at hb
      subst hb
      obtain ⟨r, hr, ht⟩ := List.mem_map.mp ha
      rw [List.any_eq_true] at hc
      exact hc ⟨r, hr, by simp [ht]⟩

/-- Claim C10: the positions table never holds two rows with the same
ticker regardless of status — starting from a table with pairwise-distinct
tickers, any sequence of open/close operations keeps them distinct — and
once any row for a ticker exists (in particular a CLOSED one), it persists
under every later operation and every later `open_position` call for that
ticker returns false with no state change. -/
theorem positions_ticker_unique_invariant (db : List PosRow) (t p m : String)
    (ep ee now : ℚ) (tn : Option String) (ops : List LedgerOp) :
    ((∃ r ∈ db, r.ticker = t) →
      (∃ r ∈ applyOps db ops, r.ticker = t) ∧
      open_position t p m ep ee now tn (applyOps db ops) =
        (false, applyOps db ops)) ∧
    ((db.map PosRow.ticker).Nodup →
      ((applyOps db ops).map PosRow.ticker).Nodup) := by
  induction ops generalizing db with
  | nil =>
    exact ⟨fun h => ⟨h, open_position_blocked h p m ep ee now tn⟩, fun h => h⟩
  | cons op ops ih =>
    refine ⟨fun h => ?_, fun h => ?_⟩
    · exact (ih (applyOp db op)).1 (applyOp_ticker_mem h op)
    · exact (ih (applyOp db op)).2 (applyOp_tickers_nodup op h)

/-- Claim C10, witness: after a further close on the table holding the
CLOSED row for `"T"`, a row for `"T"` is still present, a later open for
`"T"` fails with no state change, and tickers remain pairwise distinct. -/
theorem positions_ticker_unique_invariant_witness :
    (∃ r ∈ applyOps [sample_closed_row] [LedgerOp.closeOp "T" 50 5],
      r.ticker = "T") ∧
    open_position "T" "P3" "top5" 30 6 3 none
        (applyOps [sample_closed_row] [LedgerOp.closeOp "T" 50 5]) =
      (false, applyOps [sample_closed_row] [LedgerOp.closeOp "T" 50 5]) ∧
    ((applyOps [sample_closed_row]
      [LedgerOp.closeOp "T" 50 5]).map PosRow.ticker).Nodup := by
  have h := positions_ticker_unique_invariant [sample_closed_row] "T" "P3" "top5"
    30 6 3 none [LedgerOp.closeOp "T" 50 5]
  have hmem : ∃ r ∈ [sample_closed_row], r.ticker = "T" :=
    ⟨sample_closed_row, by simp, rfl⟩
  exact ⟨(h.1 hmem).1, (h.1 hmem).2, h.2 (by simp)⟩

end KalshiPGA
